import Mathlib

/-!
Verification of the attributed-text kiosk display
(`m4demos/src/bin/hires_text.rs`).

The development embeds the `Cursor` terminal abstraction, the screen-painting
procedures and the input-dispatch loop of the source file as executable Lean
functions, and proves (or refutes) the specification's claims about them.
Machine-integer values (`u8`, `usize`) are embedded as `Nat`; operations that
panic in Rust (slice/index out of bounds, failed `assert!`) are embedded as
`Option`-returning functions where `none` marks the panic.
-/

namespace HiresText

/-- `const COLS: usize = 80;` -/
def COLS : Nat := 80

/-- `const ROWS: usize = 37;` -/
def ROWS : Nat := 37

/-- `const WHITE: u8 = 0b11_11_11;` -/
def WHITE : Nat := 0b111111

/-- `const BLACK: u8 = 0b00_00_00;` -/
def BLACK : Nat := 0b000000

/-- `const DK_GRAY: u8 = 0b01_01_01;` -/
def DK_GRAY : Nat := 0b010101

/-- `const RED: u8 = 0b00_00_11;` -/
def RED : Nat := 0b000011

/-- `const BLUE: u8 = 0b11_00_00;` -/
def BLUE : Nat := 0b110000

/-- Modelled from the spec: the attributed cell type `AChar` comes from the
`m4vga` crate, whose source is not part of this repository.  Per the spec's
data model it is "a character code plus foreground/background color
attributes": `{ code: 8-bit character code, foreground: 6-bit color,
background: 6-bit color }`, with "no validation beyond color range truncation
to the representation's bit width — overflow wraps silently". -/
structure AChar where
  code : Nat
  fg : Nat
  bg : Nat
deriving DecidableEq, Repr

/-- Modelled from the spec: `AChar::from_ascii_char(code)`, "colors default
to 0". -/
def AChar.from_ascii_char (c : Nat) : AChar :=
  { code := c % 256, fg := 0, bg := 0 }

/-- Modelled from the spec: `AChar::with_foreground`, returning a modified
copy with the color truncated to the 6-bit representation. -/
def AChar.with_foreground (a : AChar) (p : Nat) : AChar :=
  { a with fg := p % 64 }

/-- Modelled from the spec: `AChar::with_background`, returning a modified
copy with the color truncated to the 6-bit representation. -/
def AChar.with_background (a : AChar) (p : Nat) : AChar :=
  { a with bg := p % 64 }

/-- The attributed cell that `Cursor::putc` builds from a byte and the
cursor's current colors:
`AChar::from_ascii_char(c).with_foreground(fg).with_background(bg)`. -/
def cellOf (c fg bg : Nat) : AChar :=
  ((AChar.from_ascii_char c).with_foreground fg).with_background bg

/-- The blank cell written by the line-break branch of `putc` and by
`clear()`: a space character carrying the given colors. -/
def blankCell (fg bg : Nat) : AChar :=
  cellOf 32 fg bg

/-- `struct Cursor` — the terminal-style write head over the text buffer.
The borrowed `buf: &mut [AChar; COLS * ROWS]` is embedded as a `List AChar`
carried in the state (its length is `COLS * ROWS` in every reachable state,
stated as a hypothesis where needed). -/
structure Cursor where
  buf : List AChar
  row : Nat
  col : Nat
  fg : Nat
  bg : Nat
deriving Repr, DecidableEq

/-- `Cursor::new(buf)` — position (0,0), `fg: 0xFF`, `bg: 0b100000`. -/
def Cursor.new (buf : List AChar) : Cursor :=
  { buf := buf, row := 0, col := 0, fg := 0xFF, bg := 0b100000 }

/-- The loop body of the `b'\n'` arm of `putc`:
`for p in &mut self.buf[pos..end_of_line] { *p = blank }`, i.e. the `n`
cells starting at `pos` are overwritten with `v`.  (The slice-bounds check
`end_of_line <= buf.len()` lives in `Cursor.putc`.) -/
def fillCells (v : AChar) : Nat → Nat → List AChar → List AChar
  | _, 0, l => l
  | pos, n + 1, l => fillCells v (pos + 1) n (l.set pos v)

/-- The buffer index accessed by `putc` on byte `c`: both arms start at
`pos = self.row * COLS + self.col` (the non-line-break arm writes that
single index; the line-break arm slices from it). -/
def Cursor.putcIndex (c : Cursor) (_b : Nat) : Nat :=
  c.row * COLS + c.col

/-- `Cursor::putc` — types a character terminal-style and advances the
cursor; `'\n'` pads the rest of the line.  A Rust panic (slice or index out
of bounds) is `none`. -/
def Cursor.putc (c : Cursor) (b : Nat) : Option Cursor :=
  if b = 10 then
    let pos := c.row * COLS + c.col
    let end_of_line := (pos + (COLS - 1)) / COLS * COLS
    if end_of_line ≤ c.buf.length then
      some { c with
        buf := fillCells (blankCell c.fg c.bg) pos (end_of_line - pos) c.buf,
        col := 0,
        row := c.row + 1 }
    else
      none
  else
    let pos := c.row * COLS + c.col
    if pos < c.buf.length then
      some { c with
        buf := c.buf.set pos (cellOf b c.fg c.bg),
        col := if c.col + 1 = COLS then 0 else c.col + 1,
        row := if c.col + 1 = COLS then c.row + 1 else c.row }
    else
      none

/-- `Cursor::puts` — types each character from an ASCII slice. -/
def Cursor.puts (c : Cursor) : List Nat → Option Cursor
  | [] => some c
  | b :: t => (c.putc b).bind fun c1 => c1.puts t

/-- `Cursor::goto(row, col)` — repositions the cursor; the two `assert!`s
become `none` on violation. -/
def Cursor.goto (c : Cursor) (row col : Nat) : Option Cursor :=
  if row < ROWS then
    if col < COLS then
      some { c with row := row, col := col }
    else none
  else none

/-- The loop `for _i in 0..n { self.putc(b' '); }` inside `Cursor::clear`. -/
def Cursor.putcSpaces (c : Cursor) : Nat → Option Cursor
  | 0 => some c
  | n + 1 => (c.putc 32).bind fun c1 => c1.putcSpaces n

/-- `Cursor::clear` — `self.goto(0,0)` then `COLS*ROWS` times `putc(b' ')`. -/
def Cursor.clear (c : Cursor) : Option Cursor :=
  (c.goto 0 0).bind fun c1 => c1.putcSpaces (COLS * ROWS)

/-- Byte view of an ASCII string literal (the `b"..."` literals of the
screen procedures). -/
def bytes (s : String) : List Nat :=
  s.toList.map Char.toNat

/-- `fn screen_error` from the source. -/
def screen_error (c : Cursor) : Option Cursor :=
  let o1 : Option Cursor := Cursor.clear { c with bg := BLUE, fg := WHITE }
  let o2 : Option Cursor := o1.bind fun c => Cursor.goto c 0 0
  let o3 : Option Cursor := o2.bind fun c => Cursor.puts { c with bg := RED } (bytes " \n")
  let o4 : Option Cursor := o3.bind fun c => Cursor.puts c (bytes "                                     ERROR                                      ")
  let o5 : Option Cursor := o4.bind fun c => Cursor.puts c (bytes " \n")
  o5.map fun c => { c with bg := BLACK }

/-- `fn screen_start` from the source. -/
def screen_start (c : Cursor) : Option Cursor :=
  let o1 : Option Cursor := Cursor.clear { c with bg := DK_GRAY, fg := WHITE }
  let o2 : Option Cursor := o1.bind fun c => Cursor.goto { c with bg := BLUE } 16 35
  let o3 : Option Cursor := o2.bind fun c => Cursor.puts c (bytes "           ")
  let o4 : Option Cursor := o3.bind fun c => Cursor.goto c 17 35
  let o5 : Option Cursor := o4.bind fun c => Cursor.puts c (bytes " Press any ")
  let o6 : Option Cursor := o5.bind fun c => Cursor.goto c 18 35
  let o7 : Option Cursor := o6.bind fun c => Cursor.puts c (bytes "  button   ")
  let o8 : Option Cursor := o7.bind fun c => Cursor.goto c 19 35
  let o9 : Option Cursor := o8.bind fun c => Cursor.puts c (bytes " to start! ")
  let o10 : Option Cursor := o9.bind fun c => Cursor.goto c 20 35
  let o11 : Option Cursor := o10.bind fun c => Cursor.puts c (bytes "           ")
  o11.map fun c => { c with bg := BLACK }

/-- `fn screen_paying` from the source. -/
def screen_paying (c : Cursor) : Option Cursor :=
  let o1 : Option Cursor := Cursor.clear { c with bg := DK_GRAY, fg := WHITE }
  let o2 : Option Cursor := o1.bind fun c => Cursor.goto { c with bg := BLUE } 0 0
  let o3 : Option Cursor := o2.bind fun c => Cursor.puts c (bytes " \n")
  let o4 : Option Cursor := o3.bind fun c => Cursor.puts c (bytes "                                    Payment                                     ")
  let o5 : Option Cursor := o4.bind fun c => Cursor.puts c (bytes " \n")
  let o6 : Option Cursor := o5.bind fun c => Cursor.goto c 17 35
  let o7 : Option Cursor := o6.bind fun c => Cursor.puts c (bytes "          ")
  let o8 : Option Cursor := o7.bind fun c => Cursor.goto c 18 35
  let o9 : Option Cursor := o8.bind fun c => Cursor.puts c (bytes "  Please  ")
  let o10 : Option Cursor := o9.bind fun c => Cursor.goto c 19 35
  let o11 : Option Cursor := o10.bind fun c => Cursor.puts c (bytes " pay now. ")
  let o12 : Option Cursor := o11.bind fun c => Cursor.goto c 20 35
  let o13 : Option Cursor := o12.bind fun c => Cursor.puts c (bytes "          ")
  o13.map fun c => { c with bg := BLACK }

/-- `fn screen_confirm` from the source. -/
def screen_confirm (c : Cursor) : Option Cursor :=
  let o1 : Option Cursor := Cursor.clear { c with bg := DK_GRAY, fg := WHITE }
  let o2 : Option Cursor := o1.bind fun c => Cursor.goto { c with bg := BLUE } 0 0
  let o3 : Option Cursor := o2.bind fun c => Cursor.puts c (bytes " \n")
  let o4 : Option Cursor := o3.bind fun c => Cursor.puts c (bytes "                                  Confirmation                                  ")
  let o5 : Option Cursor := o4.bind fun c => Cursor.puts c (bytes " \n")
  let o6 : Option Cursor := o5.bind fun c => Cursor.goto c 17 35
  let o7 : Option Cursor := o6.bind fun c => Cursor.puts c (bytes "           ")
  let o8 : Option Cursor := o7.bind fun c => Cursor.goto c 18 35
  let o9 : Option Cursor := o8.bind fun c => Cursor.puts c (bytes "  Do you   ")
  let o10 : Option Cursor := o9.bind fun c => Cursor.goto c 19 35
  let o11 : Option Cursor := o10.bind fun c => Cursor.puts c (bytes "  want to  ")
  let o12 : Option Cursor := o11.bind fun c => Cursor.goto c 20 35
  let o13 : Option Cursor := o12.bind fun c => Cursor.puts c (bytes " continue? ")
  let o14 : Option Cursor := o13.bind fun c => Cursor.goto c 21 35
  let o15 : Option Cursor := o14.bind fun c => Cursor.puts c (bytes "           ")
  let o16 : Option Cursor := o15.bind fun c => Cursor.goto { c with bg := 0b001000 } 11 0
  let o17 : Option Cursor := o16.bind fun c => Cursor.puts c (bytes "     ")
  let o18 : Option Cursor := o17.bind fun c => Cursor.goto c 12 0
  let o19 : Option Cursor := o18.bind fun c => Cursor.puts c (bytes " YES ")
  let o20 : Option Cursor := o19.bind fun c => Cursor.goto c 13 0
  let o21 : Option Cursor := o20.bind fun c => Cursor.puts c (bytes "     ")
  let o22 : Option Cursor := o21.bind fun c => Cursor.goto { c with bg := 0b000010 } 24 0
  let o23 : Option Cursor := o22.bind fun c => Cursor.puts c (bytes "     ")
  let o24 : Option Cursor := o23.bind fun c => Cursor.goto c 25 0
  let o25 : Option Cursor := o24.bind fun c => Cursor.puts c (bytes " NO  ")
  let o26 : Option Cursor := o25.bind fun c => Cursor.goto c 26 0
  let o27 : Option Cursor := o26.bind fun c => Cursor.puts c (bytes "     ")
  o27.map fun c => { c with bg := BLACK }

/-- `fn screen_line1` from the source. -/
def screen_line1 (c : Cursor) : Option Cursor :=
  let o1 : Option Cursor := Cursor.clear { c with bg := DK_GRAY, fg := WHITE }
  let o2 : Option Cursor := o1.bind fun c => Cursor.goto { c with bg := BLUE } 0 0
  let o3 : Option Cursor := o2.bind fun c => Cursor.puts c (bytes " \n")
  let o4 : Option Cursor := o3.bind fun c => Cursor.puts c (bytes "                                     Line 1                                     ")
  let o5 : Option Cursor := o4.bind fun c => Cursor.puts c (bytes " \n")
  let o6 : Option Cursor := o5.bind fun c => Cursor.goto c 16 35
  let o7 : Option Cursor := o6.bind fun c => Cursor.puts c (bytes "           ")
  let o8 : Option Cursor := o7.bind fun c => Cursor.goto c 17 35
  let o9 : Option Cursor := o8.bind fun c => Cursor.puts c (bytes " Choose a  ")
  let o10 : Option Cursor := o9.bind fun c => Cursor.goto c 18 35
  let o11 : Option Cursor := o10.bind fun c => Cursor.puts c (bytes " ticket to ")
  let o12 : Option Cursor := o11.bind fun c => Cursor.goto c 19 35
  let o13 : Option Cursor := o12.bind fun c => Cursor.puts c (bytes " purchase  ")
  let o14 : Option Cursor := o13.bind fun c => Cursor.goto c 20 35
  let o15 : Option Cursor := o14.bind fun c => Cursor.puts c (bytes "           ")
  let o16 : Option Cursor := o15.bind fun c => Cursor.goto c 10 0
  let o17 : Option Cursor := o16.bind fun c => Cursor.puts c (bytes "      ")
  let o18 : Option Cursor := o17.bind fun c => Cursor.goto c 11 0
  let o19 : Option Cursor := o18.bind fun c => Cursor.puts c (bytes "   A  ")
  let o20 : Option Cursor := o19.bind fun c => Cursor.goto c 12 0
  let o21 : Option Cursor := o20.bind fun c => Cursor.puts c (bytes "      ")
  let o22 : Option Cursor := o21.bind fun c => Cursor.goto c 10 74
  let o23 : Option Cursor := o22.bind fun c => Cursor.puts c (bytes "      ")
  let o24 : Option Cursor := o23.bind fun c => Cursor.goto c 11 74
  let o25 : Option Cursor := o24.bind fun c => Cursor.puts c (bytes "  B   ")
  let o26 : Option Cursor := o25.bind fun c => Cursor.goto c 12 74
  let o27 : Option Cursor := o26.bind fun c => Cursor.puts c (bytes "      ")
  let o28 : Option Cursor := o27.bind fun c => Cursor.goto c 25 0
  let o29 : Option Cursor := o28.bind fun c => Cursor.puts c (bytes "      ")
  let o30 : Option Cursor := o29.bind fun c => Cursor.goto c 26 0
  let o31 : Option Cursor := o30.bind fun c => Cursor.puts c (bytes " QUIT ")
  let o32 : Option Cursor := o31.bind fun c => Cursor.goto c 27 0
  let o33 : Option Cursor := o32.bind fun c => Cursor.puts c (bytes "      ")
  let o34 : Option Cursor := o33.bind fun c => Cursor.goto c 25 74
  let o35 : Option Cursor := o34.bind fun c => Cursor.puts c (bytes "      ")
  let o36 : Option Cursor := o35.bind fun c => Cursor.goto c 26 74
  let o37 : Option Cursor := o36.bind fun c => Cursor.puts c (bytes " NEXT ")
  let o38 : Option Cursor := o37.bind fun c => Cursor.goto c 27 74
  let o39 : Option Cursor := o38.bind fun c => Cursor.puts c (bytes "      ")
  o39

/-- `fn screen_line2` from the source. -/
def screen_line2 (c : Cursor) : Option Cursor :=
  let o1 : Option Cursor := Cursor.clear { c with bg := DK_GRAY, fg := WHITE }
  let o2 : Option Cursor := o1.bind fun c => Cursor.goto { c with bg := BLUE } 0 0
  let o3 : Option Cursor := o2.bind fun c => Cursor.puts c (bytes " \n")
  let o4 : Option Cursor := o3.bind fun c => Cursor.puts c (bytes "                                     Line 2                                     ")
  let o5 : Option Cursor := o4.bind fun c => Cursor.puts c (bytes " \n")
  let o6 : Option Cursor := o5.bind fun c => Cursor.goto c 16 35
  let o7 : Option Cursor := o6.bind fun c => Cursor.puts c (bytes "           ")
  let o8 : Option Cursor := o7.bind fun c => Cursor.goto c 17 35
  let o9 : Option Cursor := o8.bind fun c => Cursor.puts c (bytes " Choose a  ")
  let o10 : Option Cursor := o9.bind fun c => Cursor.goto c 18 35
  let o11 : Option Cursor := o10.bind fun c => Cursor.puts c (bytes " ticket to ")
  let o12 : Option Cursor := o11.bind fun c => Cursor.goto c 19 35
  let o13 : Option Cursor := o12.bind fun c => Cursor.puts c (bytes " purchase  ")
  let o14 : Option Cursor := o13.bind fun c => Cursor.goto c 20 35
  let o15 : Option Cursor := o14.bind fun c => Cursor.puts c (bytes "           ")
  let o16 : Option Cursor := o15.bind fun c => Cursor.goto c 10 0
  let o17 : Option Cursor := o16.bind fun c => Cursor.puts c (bytes "      ")
  let o18 : Option Cursor := o17.bind fun c => Cursor.goto c 11 0
  let o19 : Option Cursor := o18.bind fun c => Cursor.puts c (bytes "   C  ")
  let o20 : Option Cursor := o19.bind fun c => Cursor.goto c 12 0
  let o21 : Option Cursor := o20.bind fun c => Cursor.puts c (bytes "      ")
  let o22 : Option Cursor := o21.bind fun c => Cursor.goto c 10 74
  let o23 : Option Cursor := o22.bind fun c => Cursor.puts c (bytes "      ")
  let o24 : Option Cursor := o23.bind fun c => Cursor.goto c 11 74
  let o25 : Option Cursor := o24.bind fun c => Cursor.puts c (bytes "  D   ")
  let o26 : Option Cursor := o25.bind fun c => Cursor.goto c 12 74
  let o27 : Option Cursor := o26.bind fun c => Cursor.puts c (bytes "      ")
  let o28 : Option Cursor := o27.bind fun c => Cursor.goto c 25 0
  let o29 : Option Cursor := o28.bind fun c => Cursor.puts c (bytes "      ")
  let o30 : Option Cursor := o29.bind fun c => Cursor.goto c 26 0
  let o31 : Option Cursor := o30.bind fun c => Cursor.puts c (bytes " PREV ")
  let o32 : Option Cursor := o31.bind fun c => Cursor.goto c 27 0
  let o33 : Option Cursor := o32.bind fun c => Cursor.puts c (bytes "      ")
  let o34 : Option Cursor := o33.bind fun c => Cursor.goto c 25 74
  let o35 : Option Cursor := o34.bind fun c => Cursor.puts c (bytes "      ")
  let o36 : Option Cursor := o35.bind fun c => Cursor.goto c 26 74
  let o37 : Option Cursor := o36.bind fun c => Cursor.puts c (bytes " NEXT ")
  let o38 : Option Cursor := o37.bind fun c => Cursor.goto c 27 74
  let o39 : Option Cursor := o38.bind fun c => Cursor.puts c (bytes "      ")
  o39

/-- `fn screen_line3` from the source. -/
def screen_line3 (c : Cursor) : Option Cursor :=
  let o1 : Option Cursor := Cursor.clear { c with bg := DK_GRAY, fg := WHITE }
  let o2 : Option Cursor := o1.bind fun c => Cursor.goto { c with bg := BLUE } 0 0
  let o3 : Option Cursor := o2.bind fun c => Cursor.puts c (bytes " \n")
  let o4 : Option Cursor := o3.bind fun c => Cursor.puts c (bytes "                                     Line 3                                     ")
  let o5 : Option Cursor := o4.bind fun c => Cursor.puts c (bytes " \n")
  let o6 : Option Cursor := o5.bind fun c => Cursor.goto c 16 35
  let o7 : Option Cursor := o6.bind fun c => Cursor.puts c (bytes "           ")
  let o8 : Option Cursor := o7.bind fun c => Cursor.goto c 17 35
  let o9 : Option Cursor := o8.bind fun c => Cursor.puts c (bytes " Choose a  ")
  let o10 : Option Cursor := o9.bind fun c => Cursor.goto c 18 35
  let o11 : Option Cursor := o10.bind fun c => Cursor.puts c (bytes " ticket to ")
  let o12 : Option Cursor := o11.bind fun c => Cursor.goto c 19 35
  let o13 : Option Cursor := o12.bind fun c => Cursor.puts c (bytes " purchase  ")
  let o14 : Option Cursor := o13.bind fun c => Cursor.goto c 20 35
  let o15 : Option Cursor := o14.bind fun c => Cursor.puts c (bytes "           ")
  let o16 : Option Cursor := o15.bind fun c => Cursor.goto c 10 0
  let o17 : Option Cursor := o16.bind fun c => Cursor.puts c (bytes "      ")
  let o18 : Option Cursor := o17.bind fun c => Cursor.goto c 11 0
  let o19 : Option Cursor := o18.bind fun c => Cursor.puts c (bytes "   E  ")
  let o20 : Option Cursor := o19.bind fun c => Cursor.goto c 12 0
  let o21 : Option Cursor := o20.bind fun c => Cursor.puts c (bytes "      ")
  let o22 : Option Cursor := o21.bind fun c => Cursor.goto c 10 74
  let o23 : Option Cursor := o22.bind fun c => Cursor.puts c (bytes "      ")
  let o24 : Option Cursor := o23.bind fun c => Cursor.goto c 11 74
  let o25 : Option Cursor := o24.bind fun c => Cursor.puts c (bytes "  F   ")
  let o26 : Option Cursor := o25.bind fun c => Cursor.goto c 12 74
  let o27 : Option Cursor := o26.bind fun c => Cursor.puts c (bytes "      ")
  let o28 : Option Cursor := o27.bind fun c => Cursor.goto c 25 0
  let o29 : Option Cursor := o28.bind fun c => Cursor.puts c (bytes "      ")
  let o30 : Option Cursor := o29.bind fun c => Cursor.goto c 26 0
  let o31 : Option Cursor := o30.bind fun c => Cursor.puts c (bytes " PREV ")
  let o32 : Option Cursor := o31.bind fun c => Cursor.goto c 27 0
  let o33 : Option Cursor := o32.bind fun c => Cursor.puts c (bytes "      ")
  let o34 : Option Cursor := o33.bind fun c => Cursor.goto c 25 74
  let o35 : Option Cursor := o34.bind fun c => Cursor.puts c (bytes "      ")
  let o36 : Option Cursor := o35.bind fun c => Cursor.goto c 26 74
  let o37 : Option Cursor := o36.bind fun c => Cursor.puts c (bytes " QUIT ")
  let o38 : Option Cursor := o37.bind fun c => Cursor.goto c 27 74
  let o39 : Option Cursor := o38.bind fun c => Cursor.puts c (bytes "      ")
  o39

/-- `fn screen_thanks` from the source. -/
def screen_thanks (c : Cursor) : Option Cursor :=
  let o1 : Option Cursor := Cursor.clear { c with bg := DK_GRAY, fg := WHITE }
  let o2 : Option Cursor := o1.bind fun c => Cursor.goto { c with bg := BLUE } 0 0
  let o3 : Option Cursor := o2.bind fun c => Cursor.puts c (bytes " \n")
  let o4 : Option Cursor := o3.bind fun c => Cursor.puts c (bytes "                                    Thank You                                   ")
  let o5 : Option Cursor := o4.bind fun c => Cursor.puts c (bytes " \n")
  let o6 : Option Cursor := o5.bind fun c => Cursor.goto { c with bg := 0b000100, fg := BLACK } 17 34
  let o7 : Option Cursor := o6.bind fun c => Cursor.puts c (bytes "            ")
  let o8 : Option Cursor := o7.bind fun c => Cursor.goto c 18 34
  let o9 : Option Cursor := o8.bind fun c => Cursor.puts c (bytes " Thanks for ")
  let o10 : Option Cursor := o9.bind fun c => Cursor.goto c 19 34
  let o11 : Option Cursor := o10.bind fun c => Cursor.puts c (bytes " travelling ")
  let o12 : Option Cursor := o11.bind fun c => Cursor.goto c 20 34
  let o13 : Option Cursor := o12.bind fun c => Cursor.puts c (bytes "  with us!  ")
  let o14 : Option Cursor := o13.bind fun c => Cursor.goto c 21 34
  let o15 : Option Cursor := o14.bind fun c => Cursor.puts c (bytes "            ")
  o15

/-- The `match s` dispatch in `main`'s application loop. -/
def dispatch (s : Nat) (c : Cursor) : Option Cursor :=
  match s with
  | 0 => screen_error c
  | 1 => screen_start c
  | 2 => screen_paying c
  | 3 => screen_confirm c
  | 4 => screen_line1 c
  | 5 => screen_line2 c
  | 6 => screen_thanks c
  | _ => screen_error c

/-- Modelled from the spec: the bytes produced by
`write!(&mut c, "{:03b}", s)` for a 3-bit code — the code "in fixed-width
binary" (three binary digits, zero-padded; `core::fmt` is not part of this
repository).  The `core::fmt::Write` impl for `Cursor` feeds each formatted
character through `putc`. -/
def fmt3b (s : Nat) : List Nat :=
  [48 + s / 4 % 2, 48 + s / 2 % 2, 48 + s % 2]

/-- One iteration of the application loop's buffer-painting logic, given the
previous input code `s0`, the freshly sampled code `s` and the cursor:
dispatch on change, update `s0`, then unconditionally draw the diagnostic
overlay.  Returns the painted cursor and the updated previous code. -/
def loopIter (s0 s : Nat) (c : Cursor) : Option Cursor × Nat :=
  ((if s0 ≠ s then dispatch s c else some c).bind fun c =>
    (Cursor.goto { c with bg := RED, fg := WHITE } 35 77).bind fun c =>
    c.puts (fmt3b s),
   s)

theorem take_set_succ {A : Type} (a : A) :
    ∀ (l : List A) (p : Nat), p < l.length → (l.set p a).take (p + 1) = l.take p ++ [a]
  | [], p, h => by simp at h
  | x :: xs, 0, _ => by simp
  | x :: xs, p + 1, h => by
    simp only [List.set, List.take, List.cons_append, List.cons.injEq, true_and]
    exact take_set_succ a xs p (by simpa using h)

theorem drop_set_of_lt {A : Type} (a : A) :
    ∀ (l : List A) (p m : Nat), p < m → (l.set p a).drop m = l.drop m
  | [], _, _, _ => by simp
  | x :: xs, 0, m + 1, _ => by simp
  | x :: xs, p + 1, m + 1, h => by
    simp only [List.set, List.drop]
    exact drop_set_of_lt a xs p m (by omega)

/-- Effect of the line-padding loop: the `n` cells starting at `pos` become
`v`, the rest of the buffer is untouched. -/
theorem fillCells_spec (v : AChar) :
    ∀ (n pos : Nat) (l : List AChar), pos + n ≤ l.length →
      fillCells v pos n l = l.take pos ++ List.replicate n v ++ l.drop (pos + n)
  | 0, pos, l, _ => by simp [fillCells]
  | n + 1, pos, l, h => by
    have hp : pos < l.length := by omega
    have hlen : (l.set pos v).length = l.length := by simp
    rw [fillCells, fillCells_spec v n (pos + 1) (l.set pos v) (by omega)]
    rw [take_set_succ v l pos hp, drop_set_of_lt v l pos (pos + 1 + n) (by omega)]
    have harith : pos + 1 + n = pos + (n + 1) := by omega
    rw [harith]
    simp [List.replicate_succ]

/-- Writing a line-break-free byte sequence from position
`p = row*COLS + col` (with `col < COLS`) succeeds whenever it fits in the
buffer, stores the byte cells in order at `p`, leaves the rest untouched,
and leaves the cursor at the position `p + length` (in row/column form). -/
theorem puts_run :
    ∀ (s : List Nat) (c : Cursor),
      (∀ b ∈ s, b ≠ 10) → c.col < COLS →
      c.row * COLS + c.col + s.length ≤ c.buf.length →
      Cursor.puts c s = some {
        buf := c.buf.take (c.row * COLS + c.col)
               ++ s.map (fun b => cellOf b c.fg c.bg)
               ++ c.buf.drop (c.row * COLS + c.col + s.length),
        row := (c.row * COLS + c.col + s.length) / COLS,
        col := (c.row * COLS + c.col + s.length) % COLS,
        fg := c.fg, bg := c.bg } := by
  intro s
  induction s with
  | nil =>
    rintro ⟨buf, row, col, fg, bg⟩ _ hcol hlen
    simp only [COLS] at hcol
    simp only [Cursor.puts, List.length_nil, Nat.add_zero, List.map_nil,
      List.nil_append, List.take_append_drop, Option.some.injEq]
    have h1 : (row * COLS + col) / COLS = row := by simp only [COLS]; omega
    have h2 : (row * COLS + col) % COLS = col := by simp only [COLS]; omega
    simp [h1, h2]
  | cons b t ih =>
    rintro ⟨buf, row, col, fg, bg⟩ hnb hcol hlen
    have hb10 : b ≠ 10 := hnb b (List.mem_cons_self b t)
    simp only [List.length_cons] at hlen
    have hpos : row * COLS + col < buf.length := by omega
    have hnb' : ∀ x ∈ t, x ≠ 10 := fun x hx => hnb x (List.mem_cons_of_mem b hx)
    simp only [Cursor.puts, Cursor.putc, if_neg hb10]
    rw [if_pos hpos]
    simp only [Option.some_bind]
    by_cases h80 : col + 1 = COLS
    · simp only [if_pos h80]
      rw [ih ⟨buf.set (row * COLS + col) (cellOf b fg bg), row + 1, 0, fg, bg⟩
        hnb' (by simp [COLS]) (by simp only [List.length_set, COLS] at *; omega)]
      simp only [Option.some.injEq]
      have hp1 : (row + 1) * COLS + 0 = row * COLS + col + 1 := by
        simp only [COLS] at *; omega
      have hp2 : row * COLS + col + 1 + t.length = row * COLS + col + (t.length + 1) := by
        omega
      simp only [hp1, hp2]
      rw [take_set_succ _ buf _ hpos, drop_set_of_lt _ buf _ _ (by omega)]
      simp [List.append_assoc]
    · simp only [if_neg h80]
      rw [ih ⟨buf.set (row * COLS + col) (cellOf b fg bg), row, col + 1, fg, bg⟩
        hnb' (by simp only [COLS] at *; omega)
        (by simp only [List.length_set, COLS] at *; omega)]
      simp only [Option.some.injEq]
      have hp1 : row * COLS + (col + 1) = row * COLS + col + 1 := by omega
      have hp2 : row * COLS + col + 1 + t.length = row * COLS + col + (t.length + 1) := by
        omega
      simp only [hp1, hp2]
      rw [take_set_succ _ buf _ hpos, drop_set_of_lt _ buf _ _ (by omega)]
      simp [List.append_assoc]

/-- The space-writing loop of `clear` is `puts` of a run of spaces. -/
theorem putcSpaces_eq :
    ∀ (n : Nat) (c : Cursor), c.putcSpaces n = c.puts (List.replicate n 32)
  | 0, c => rfl
  | n + 1, c => by
    simp only [Cursor.putcSpaces, List.replicate_succ, Cursor.puts]
    cases c.putc 32 with
    | none => rfl
    | some c1 => simp only [Option.some_bind, putcSpaces_eq n c1]

/-- `clear()` blanks the whole grid with the cursor's current colors and
leaves the cursor at row `ROWS` (one past the last row), column 0. -/
theorem clear_spec (c : Cursor) (h : c.buf.length = COLS * ROWS) :
    Cursor.clear c = some {
      buf := List.replicate (COLS * ROWS) (blankCell c.fg c.bg),
      row := ROWS, col := 0, fg := c.fg, bg := c.bg } := by
  obtain ⟨buf, row, col, fg, bg⟩ := c
  simp only [Cursor.buf] at h
  have hgoto : Cursor.goto ⟨buf, row, col, fg, bg⟩ 0 0
      = some ⟨buf, 0, 0, fg, bg⟩ := by
    simp [Cursor.goto, ROWS, COLS]
  unfold Cursor.clear
  rw [hgoto]
  rw [Option.some_bind]
  rw [putcSpaces_eq]
  rw [puts_run (List.replicate (COLS * ROWS) 32) ⟨buf, 0, 0, fg, bg⟩
    (fun b hb => by have := List.eq_of_mem_replicate hb; omega)
    (by simp [COLS])
    (by simp [h])]
  simp only [Option.some.injEq, Cursor.mk.injEq, List.length_replicate,
    Nat.zero_mul, Nat.zero_add]
  refine ⟨?_, by simp [COLS, ROWS], by simp [COLS, ROWS], trivial, trivial⟩
  rw [List.take_zero, List.map_replicate, List.drop_eq_nil_of_le (le_of_eq h)]
  simp [blankCell]


/-- A concrete all-blank starting cursor used by several concrete instances
below: a fresh `Cursor::new` over a grid of `COLS * ROWS` zero cells, as
built at startup (`TEXT_BUF` is initialised with `AChar::from_ascii_char(0)`). -/
def cstd : Cursor := Cursor.new (List.replicate (COLS * ROWS) (AChar.from_ascii_char 0))

/-- Closed form of `goto`: the two asserts collapse to one condition. -/
theorem goto_eq (c : Cursor) (r k : Nat) :
    Cursor.goto c r k =
      if r < ROWS ∧ k < COLS then some { c with row := r, col := k } else none := by
  unfold Cursor.goto
  by_cases h1 : r < ROWS
  · by_cases h2 : k < COLS
    · rw [if_pos h1, if_pos h2, if_pos ⟨h1, h2⟩]
    · rw [if_pos h1, if_neg h2, if_neg (fun h => h2 h.2)]
  · rw [if_neg h1, if_neg (fun h => h1 h.1)]

/-- A successful `putc` keeps the column a valid index (no row bound needed). -/
theorem putc_some_col (c c1 : Cursor) (b : Nat) (hk : c.col < COLS)
    (h : Cursor.putc c b = some c1) : c1.col < COLS := by
  unfold Cursor.putc at h
  by_cases hb : b = 10
  · rw [if_pos hb] at h
    dsimp only at h
    split at h
    · replace h := (Option.some.injEq _ _).mp h
      subst h
      simp [COLS]
    · cases h
  · rw [if_neg hb] at h
    dsimp only at h
    split at h
    · replace h := (Option.some.injEq _ _).mp h
      subst h
      by_cases h80 : c.col + 1 = COLS
      · simp [h80, COLS]
      · dsimp only
        rw [if_neg h80]
        simp only [COLS] at *
        omega
    · cases h

/-- A successful `putc` advances the row by at most one. -/
theorem putc_some_row (c c1 : Cursor) (b : Nat)
    (h : Cursor.putc c b = some c1) : c1.row ≤ c.row + 1 := by
  unfold Cursor.putc at h
  by_cases hb : b = 10
  · rw [if_pos hb] at h
    dsimp only at h
    split at h
    · replace h := (Option.some.injEq _ _).mp h
      subst h
      simp
    · cases h
  · rw [if_neg hb] at h
    dsimp only at h
    split at h
    · replace h := (Option.some.injEq _ _).mp h
      subst h
      by_cases h80 : c.col + 1 = COLS
      · simp [h80]
      · simp [h80]
    · cases h

/-- A successful `puts` keeps the column a valid index. -/
theorem puts_some_col :
    ∀ (s : List Nat) (c c1 : Cursor), c.col < COLS →
      Cursor.puts c s = some c1 → c1.col < COLS
  | [], c, c1, hk, h => by
    cases h
    exact hk
  | b :: t, c, c1, hk, h => by
    simp only [Cursor.puts] at h
    cases hpc : Cursor.putc c b with
    | none => rw [hpc] at h; cases h
    | some c2 =>
      rw [hpc, Option.some_bind] at h
      exact puts_some_col t c2 c1 (putc_some_col c c2 b hk hpc) h

/-- C1 (amended): from any in-bounds cursor position over a full-size grid,
`put_character` of the line-break byte leaves the cursor at column 0 of the
next row, and: when the current column is nonzero it fills every cell of the
current row from the current column to the row's end with blank cells
carrying the cursor's current colors, leaving all other cells unchanged;
when the current column is 0 it fills no cells at all — the grid is left
completely unchanged (the padding claimed for column 0 does not happen). -/
theorem putc_newline_spec (c : Cursor) (hr : c.row < ROWS) (hk : c.col < COLS)
    (hb : c.buf.length = COLS * ROWS) :
    (0 < c.col →
      Cursor.putc c 10 = some {
        buf := c.buf.take (c.row * COLS + c.col)
               ++ List.replicate (COLS - c.col) (blankCell c.fg c.bg)
               ++ c.buf.drop ((c.row + 1) * COLS),
        row := c.row + 1, col := 0, fg := c.fg, bg := c.bg })
    ∧ (c.col = 0 → Cursor.putc c 10 = some { c with row := c.row + 1, col := 0 }) := by
  simp only [COLS, ROWS] at hr hk hb
  constructor
  · intro hkpos
    unfold Cursor.putc
    rw [if_pos rfl]
    dsimp only
    have heol : (c.row * COLS + c.col + (COLS - 1)) / COLS * COLS
        = (c.row + 1) * COLS := by
      simp only [COLS]
      omega
    rw [heol]
    rw [if_pos (by simp only [COLS]; omega)]
    have hn : (c.row + 1) * COLS - (c.row * COLS + c.col) = COLS - c.col := by
      simp only [COLS]
      omega
    rw [hn]
    rw [fillCells_spec (blankCell c.fg c.bg) (COLS - c.col) (c.row * COLS + c.col)
      c.buf (by simp only [COLS]; omega)]
    have hd : c.row * COLS + c.col + (COLS - c.col) = (c.row + 1) * COLS := by
      simp only [COLS]
      omega
    rw [hd]
  · intro hk0
    unfold Cursor.putc
    rw [if_pos rfl]
    dsimp only
    have heol : (c.row * COLS + c.col + (COLS - 1)) / COLS * COLS
        = c.row * COLS + c.col := by
      simp only [COLS]
      omega
    rw [heol]
    rw [if_pos (by simp only [COLS]; omega), Nat.sub_self]
    rfl

/-- Concrete refutation state for the column-0 line-break claim: a grid full
of `A` cells, cursor at (0,0) with colors 5/6. -/
def c1cex : Cursor :=
  { buf := cellOf 65 1 2 :: List.replicate (COLS * ROWS - 1) (cellOf 65 1 2),
    row := 0, col := 0, fg := 5, bg := 6 }

/-- C1 counterexample: with the cursor at column 0, `put_character` of the
line-break byte leaves the grid completely unchanged — in particular the
first cell of the current row is still the old `A` cell instead of a blank
cell carrying the cursor's colors — so the claimed padding does not hold at
column 0. -/
theorem putc_newline_col0_cex :
    c1cex.row < ROWS ∧ c1cex.col = 0 ∧ c1cex.buf.length = COLS * ROWS ∧
    Cursor.putc c1cex 10 = some { c1cex with row := c1cex.row + 1, col := 0 } ∧
    c1cex.buf.get? 0 = some (cellOf 65 1 2) ∧
    cellOf 65 1 2 ≠ blankCell c1cex.fg c1cex.bg := by
  refine ⟨by decide, by decide, by simp only [c1cex, List.length_cons,
    List.length_replicate, COLS, ROWS], ?_, rfl, by decide⟩
  have hpos : c1cex.row * COLS + c1cex.col = 0 := by simp [c1cex]
  unfold Cursor.putc
  rw [if_pos rfl]
  dsimp only
  rw [hpos]
  have heol : (0 + (COLS - 1)) / COLS * COLS = 0 := by simp [COLS]
  rw [heol, if_pos (Nat.zero_le _)]
  rfl

/-- Concrete exercise state for the amended line-break theorem: cursor at
row 1, column 2. -/
def c1wit : Cursor :=
  { buf := List.replicate (COLS * ROWS) (cellOf 66 3 4), row := 1, col := 2,
    fg := 7, bg := 8 }

/-- Witness for the amended line-break theorem at row 1, column 2. -/
theorem putc_newline_spec_witness :
    (c1wit.row < ROWS ∧ c1wit.col < COLS ∧ c1wit.buf.length = COLS * ROWS ∧
      0 < c1wit.col) ∧
    Cursor.putc c1wit 10 = some {
      buf := c1wit.buf.take (c1wit.row * COLS + c1wit.col)
             ++ List.replicate (COLS - c1wit.col) (blankCell c1wit.fg c1wit.bg)
             ++ c1wit.buf.drop ((c1wit.row + 1) * COLS),
      row := c1wit.row + 1, col := 0, fg := c1wit.fg, bg := c1wit.bg } :=
  ⟨⟨by decide, by decide, by simp [c1wit], by decide⟩,
   (putc_newline_spec c1wit (by decide) (by decide) (by simp [c1wit])).1 (by decide)⟩

/-- C2 (amended): the column always stays a valid index, and writes past the
last column wrap to the next row; but `row < ROWS` is NOT preserved by every
operation: `goto` establishes both bounds, a successful `put_character`
guarantees only `col < COLS` and `row ≤ ROWS` (row can reach `ROWS` by
wrapping out of the last row), `put_string` preserves `col < COLS`, and
`clear` always leaves the cursor at `row = ROWS`, column 0. -/
theorem cursor_bounds_spec :
    (∀ (c c1 : Cursor) (r k : Nat),
      Cursor.goto c r k = some c1 → c1.row < ROWS ∧ c1.col < COLS) ∧
    (∀ (c c1 : Cursor) (b : Nat), c.row < ROWS → c.col < COLS →
      Cursor.putc c b = some c1 → c1.col < COLS ∧ c1.row ≤ ROWS) ∧
    (∀ (c c1 : Cursor) (b : Nat), c.col + 1 = COLS → b ≠ 10 →
      Cursor.putc c b = some c1 → c1.col = 0 ∧ c1.row = c.row + 1) ∧
    (∀ (c c1 : Cursor) (s : List Nat), c.col < COLS →
      Cursor.puts c s = some c1 → c1.col < COLS) ∧
    (∀ (c c1 : Cursor), c.buf.length = COLS * ROWS →
      Cursor.clear c = some c1 → c1.row = ROWS ∧ c1.col = 0) := by
  refine ⟨?_, ?_, ?_, ?_, ?_⟩
  · intro c c1 r k h
    rw [goto_eq] at h
    split at h
    · replace h := (Option.some.injEq _ _).mp h
      subst h
      exact ⟨by simpa using (by assumption : r < ROWS ∧ k < COLS).1,
             by simpa using (by assumption : r < ROWS ∧ k < COLS).2⟩
    · cases h
  · intro c c1 b hr hk h
    exact ⟨putc_some_col c c1 b hk h,
           le_trans (putc_some_row c c1 b h) (by omega)⟩
  · intro c c1 b hwrap hb h
    unfold Cursor.putc at h
    rw [if_neg hb] at h
    dsimp only at h
    split at h
    · replace h := (Option.some.injEq _ _).mp h
      subst h
      simp [hwrap]
    · cases h
  · intro c c1 s hk h
    exact puts_some_col s c c1 hk h
  · intro c c1 hlen h
    rw [clear_spec c hlen] at h
    replace h := (Option.some.injEq _ _).mp h
    subst h
    exact ⟨rfl, rfl⟩

/-- Concrete refutation state for the cursor invariant: a valid cursor at the
last cell of the grid, row `ROWS - 1`, column `COLS - 1`. -/
def c2cex : Cursor :=
  { buf := List.replicate (COLS * ROWS) (cellOf 66 0 0), row := 36, col := 79,
    fg := 1, bg := 2 }

/-- C2 counterexample: from the in-bounds cursor position (36, 79),
`put_character` of a plain byte succeeds and leaves `row = ROWS`, which is no
longer a valid row index — the claimed invariant `row < ROWS` is not
preserved. -/
theorem cursor_bounds_cex :
    (c2cex.row < ROWS ∧ c2cex.col < COLS ∧ c2cex.buf.length = COLS * ROWS) ∧
    (Cursor.putc c2cex 65).map Cursor.row = some ROWS ∧
    ¬ ROWS < ROWS := by
  refine ⟨⟨by decide, by decide,
    by simp only [c2cex, List.length_replicate]⟩, ?_, by decide⟩
  have hlt : c2cex.row * COLS + c2cex.col < c2cex.buf.length := by
    simp only [c2cex, List.length_replicate, COLS, ROWS]
    omega
  unfold Cursor.putc
  rw [if_neg (by decide : (65 : Nat) ≠ 10)]
  dsimp only
  rw [if_pos hlt]
  rw [Option.map_some']
  have h80 : c2cex.col + 1 = COLS := by decide
  dsimp only
  rw [if_pos h80]
  decide

/-- The state produced by `clear` on the startup cursor. -/
def clearRes : Cursor :=
  { buf := List.replicate (COLS * ROWS) (blankCell 0xFF 0b100000),
    row := ROWS, col := 0, fg := 0xFF, bg := 0b100000 }

/-- Witness for the amended cursor-bounds theorem: after `clear` from the
startup cursor, the row is exactly `ROWS` and the column 0. -/
theorem cursor_bounds_spec_witness :
    cstd.buf.length = COLS * ROWS ∧
    Cursor.clear cstd = some clearRes ∧
    clearRes.row = ROWS ∧ clearRes.col = 0 := by
  have hlen : cstd.buf.length = COLS * ROWS := by simp [cstd, Cursor.new]
  have hcl : Cursor.clear cstd = some clearRes := clear_spec cstd hlen
  have hres := cursor_bounds_spec.2.2.2.2 cstd clearRes hlen hcl
  exact ⟨hlen, hcl, hres.1, hres.2⟩

/-- The cursor state right before the out-of-bounds write: the startup grid
with the cursor moved to row 36, column 79 (the last cell). -/
def c3mid : Cursor :=
  { buf := List.replicate (COLS * ROWS) (AChar.from_ascii_char 0),
    row := 36, col := 79, fg := 0xFF, bg := 0b100000 }

/-- The cursor state after writing the last cell: `row` has wrapped to 37,
equal to `ROWS`. -/
def c3after : Cursor :=
  { buf := (List.replicate (COLS * ROWS) (AChar.from_ascii_char 0)).set
      (36 * COLS + 79) (cellOf 88 0xFF 0b100000),
    row := 37, col := 0, fg := 0xFF, bg := 0b100000 }

/-- C3: `put_character` has no bounds check against `ROWS`.  From the startup
cursor, `goto(36, 79)` reaches the last cell of the grid; writing that cell
succeeds and leaves the cursor in the reachable state `c3after` whose `row`
field equals `ROWS`; a subsequent `put_character` of a plain (non-line-break)
byte there computes the buffer index `ROWS * COLS = COLS * ROWS`, at/beyond
`COLS * ROWS` and hence outside the Grid, and the access panics (`none`). -/
theorem putc_no_row_check :
    Cursor.goto cstd 36 79 = some c3mid ∧
    Cursor.putc c3mid 88 = some c3after ∧
    ROWS ≤ c3after.row ∧
    COLS * ROWS ≤ c3after.putcIndex 66 ∧
    Cursor.putc c3after 66 = none := by
  have hlt : c3mid.row * COLS + c3mid.col < c3mid.buf.length := by
    simp only [c3mid, List.length_replicate, COLS, ROWS]
    omega
  have hnlt : ¬ (c3after.row * COLS + c3after.col < c3after.buf.length) := by
    simp only [c3after, List.length_set, List.length_replicate, COLS, ROWS]
    omega
  refine ⟨?_, ?_, by decide, by decide, ?_⟩
  · rw [goto_eq, if_pos ⟨by decide, by decide⟩]
    rfl
  · unfold Cursor.putc
    rw [if_neg (by decide : (88 : Nat) ≠ 10)]
    dsimp only
    rw [if_pos hlt]
    rfl
  · unfold Cursor.putc
    rw [if_neg (by decide : (66 : Nat) ≠ 10)]
    dsimp only
    rw [if_neg hnlt]

/-- C7: `goto(row, col)` fails (asserts, `none`) precisely when
`row ≥ ROWS` or `col ≥ COLS`; on success it sets the cursor to exactly
`(row, col)` — no clamping — and leaves the grid and the colors unchanged. -/
theorem goto_spec (c : Cursor) (r k : Nat) :
    (Cursor.goto c r k = none ↔ ROWS ≤ r ∨ COLS ≤ k) ∧
    (r < ROWS → k < COLS →
      Cursor.goto c r k = some { c with row := r, col := k }) := by
  constructor
  · rw [goto_eq]
    by_cases h : r < ROWS ∧ k < COLS
    · rw [if_pos h]
      simp only [reduceCtorEq, false_iff]
      omega
    · rw [if_neg h]
      simp only [true_iff]
      omega
  · intro h1 h2
    rw [goto_eq, if_pos ⟨h1, h2⟩]

/-- Witness for the `goto` specification: success at (3,4) from the startup
cursor sets exactly that position, and (37,0) fails. -/
theorem goto_spec_witness :
    ((3 : Nat) < ROWS ∧ (4 : Nat) < COLS ∧
      Cursor.goto cstd 3 4 = some { cstd with row := 3, col := 4 }) ∧
    Cursor.goto cstd 37 0 = none :=
  ⟨⟨by decide, by decide, (goto_spec cstd 3 4).2 (by decide) (by decide)⟩,
   (goto_spec cstd 37 0).1.mpr (Or.inl (by decide))⟩

/-- C5: the input-code dispatch is total with an error-screen default — code
0 maps to `screen_error`, every code without its own arm (7 and above) falls
back to `screen_error`, and every 3-bit code maps to one of the screen
procedures; in particular `0b111` dispatches the same procedure as `0b000`. -/
theorem dispatch_total (c : Cursor) :
    dispatch 7 c = dispatch 0 c ∧
    dispatch 0 c = screen_error c ∧
    (∀ s, 7 ≤ s → dispatch s c = screen_error c) ∧
    (∀ s, s < 8 →
      dispatch s c = screen_error c ∨ dispatch s c = screen_start c ∨
      dispatch s c = screen_paying c ∨ dispatch s c = screen_confirm c ∨
      dispatch s c = screen_line1 c ∨ dispatch s c = screen_line2 c ∨
      dispatch s c = screen_thanks c) := by
  refine ⟨rfl, rfl, ?_, ?_⟩
  · intro s hs
    obtain ⟨n, rfl⟩ : ∃ n, s = n + 7 := ⟨s - 7, by omega⟩
    rfl
  · intro s hs
    interval_cases s
    · exact Or.inl rfl
    · exact Or.inr (Or.inl rfl)
    · exact Or.inr (Or.inr (Or.inl rfl))
    · exact Or.inr (Or.inr (Or.inr (Or.inl rfl)))
    · exact Or.inr (Or.inr (Or.inr (Or.inr (Or.inl rfl))))
    · exact Or.inr (Or.inr (Or.inr (Or.inr (Or.inr (Or.inl rfl)))))
    · exact Or.inr (Or.inr (Or.inr (Or.inr (Or.inr (Or.inr rfl)))))
    · exact Or.inl rfl

/-- Witness for the dispatch theorem: code 9 (no arm of its own) falls back
to the error screen, and code 5 maps to one of the screen procedures. -/
theorem dispatch_total_witness :
    ((7 : Nat) ≤ 9 ∧ dispatch 9 cstd = screen_error cstd) ∧
    ((5 : Nat) < 8 ∧
      (dispatch 5 cstd = screen_error cstd ∨ dispatch 5 cstd = screen_start cstd ∨
       dispatch 5 cstd = screen_paying cstd ∨ dispatch 5 cstd = screen_confirm cstd ∨
       dispatch 5 cstd = screen_line1 cstd ∨ dispatch 5 cstd = screen_line2 cstd ∨
       dispatch 5 cstd = screen_thanks cstd)) :=
  ⟨⟨by decide, (dispatch_total cstd).2.2.1 9 (by decide)⟩,
   ⟨by decide, (dispatch_total cstd).2.2.2 5 (by decide)⟩⟩

/-- C9: `clear()` is definitionally `goto(0,0)` followed by exactly
`COLS * ROWS` repetitions of `put_character(' ')`, and consequently (for the
full-size grid) it turns every cell into a space character carrying the
cursor's current foreground and background colors. -/
theorem clear_is_goto_then_spaces (c : Cursor) :
    Cursor.clear c = (Cursor.goto c 0 0).bind (fun c1 => Cursor.putcSpaces c1 (COLS * ROWS)) ∧
    (c.buf.length = COLS * ROWS →
      Cursor.clear c = some {
        buf := List.replicate (COLS * ROWS) (blankCell c.fg c.bg),
        row := ROWS, col := 0, fg := c.fg, bg := c.bg }) :=
  ⟨rfl, fun h => clear_spec c h⟩

/-- Witness for the `clear` theorem at the startup cursor. -/
theorem clear_is_goto_then_spaces_witness :
    cstd.buf.length = COLS * ROWS ∧
    Cursor.clear cstd = some {
      buf := List.replicate (COLS * ROWS) (blankCell 0xFF 0b100000),
      row := ROWS, col := 0, fg := 0xFF, bg := 0b100000 } :=
  ⟨by simp [cstd, Cursor.new],
   (clear_is_goto_then_spaces cstd).2 (by simp [cstd, Cursor.new])⟩

/-- C10: a fresh `Cursor::new` starts at row 0, column 0, with foreground
`0xFF` (at least `2^6`, exceeding the 6-bit color depth) and background
`0b100000` — unlike the all-zero default cell — so any character written
before the caller assigns colors is stored with nonzero color attributes. -/
theorem cursor_new_colors (buf : List AChar) (b : Nat) :
    (Cursor.new buf).row = 0 ∧ (Cursor.new buf).col = 0 ∧
    (Cursor.new buf).fg = 0xFF ∧ (Cursor.new buf).bg = 0b100000 ∧
    64 ≤ (Cursor.new buf).fg ∧
    AChar.from_ascii_char 0 = { code := 0, fg := 0, bg := 0 } ∧
    (cellOf b (Cursor.new buf).fg (Cursor.new buf).bg).fg ≠ 0 ∧
    (cellOf b (Cursor.new buf).fg (Cursor.new buf).bg).bg ≠ 0 := by
  refine ⟨rfl, rfl, rfl, rfl, by simp [Cursor.new], by decide, ?_, ?_⟩
  · simp [cellOf, AChar.with_background, AChar.with_foreground, Cursor.new]
  · simp [cellOf, AChar.with_background, AChar.with_foreground, Cursor.new]

/-- C8: writing exactly `COLS` non-line-break bytes starting at column 0 of a
row with at least one row below stores exactly those `COLS` byte cells (in
order, with the cursor's current colors) into that row, inserts no blank
padding, leaves the rest of the grid unchanged, and leaves the cursor at
column 0 of the next row. -/
theorem puts_full_row (c : Cursor) (s : List Nat) (h0 : c.col = 0)
    (hr : c.row + 1 < ROWS) (hlen : s.length = COLS)
    (hnb : ∀ b ∈ s, b ≠ 10) (hb : c.buf.length = COLS * ROWS) :
    Cursor.puts c s = some {
      buf := c.buf.take (c.row * COLS)
             ++ s.map (fun b => cellOf b c.fg c.bg)
             ++ c.buf.drop (c.row * COLS + COLS),
      row := c.row + 1, col := 0, fg := c.fg, bg := c.bg } := by
  have hcol : c.col < COLS := by
    rw [h0]
    simp [COLS]
  have hle : c.row * COLS + c.col + s.length ≤ c.buf.length := by
    rw [h0, hlen, hb]
    simp only [COLS, ROWS] at hr ⊢
    omega
  rw [puts_run s c hnb hcol hle]
  rw [h0, hlen]
  simp only [Nat.add_zero]
  rw [show (c.row * COLS + COLS) / COLS = c.row + 1 from by simp only [COLS]; omega,
      show (c.row * COLS + COLS) % COLS = 0 from by simp only [COLS]; omega]

/-- Witness for the full-row write theorem: 80 copies of `A` written from
(0,0) on the startup cursor. -/
theorem puts_full_row_witness :
    (cstd.col = 0 ∧ cstd.row + 1 < ROWS ∧
      (List.replicate 80 (65 : Nat)).length = COLS ∧
      (∀ b ∈ List.replicate 80 (65 : Nat), b ≠ 10) ∧
      cstd.buf.length = COLS * ROWS) ∧
    Cursor.puts cstd (List.replicate 80 65) = some {
      buf := cstd.buf.take (cstd.row * COLS)
             ++ (List.replicate 80 (65 : Nat)).map (fun b => cellOf b cstd.fg cstd.bg)
             ++ cstd.buf.drop (cstd.row * COLS + COLS),
      row := cstd.row + 1, col := 0, fg := cstd.fg, bg := cstd.bg } :=
  ⟨⟨rfl, by decide, by decide, by decide, by simp [cstd, Cursor.new]⟩,
   puts_full_row cstd (List.replicate 80 65) rfl (by decide) (by decide)
     (by decide) (by simp [cstd, Cursor.new])⟩

/-- C6: in every application-loop iteration the updated previous-code state
is the sampled code; the diagnostic overlay (the 3-digit binary rendering of
the current code, white on red, written from row 35 column 77) is drawn
unconditionally after the dispatch-on-change; and when the sampled code
equals the previous code no screen procedure runs — the grid is unchanged
except for the three overlay cells, and the cursor ends at (36, 0) with
colors white-on-red. -/
theorem loop_iteration_spec (s0 s : Nat) (c : Cursor)
    (hb : c.buf.length = COLS * ROWS) (hs : s < 8) :
    (loopIter s0 s c).2 = s ∧
    (loopIter s0 s c).1 = ((if s0 ≠ s then dispatch s c else some c).bind fun c1 =>
      (Cursor.goto { c1 with bg := RED, fg := WHITE } 35 77).bind fun c2 =>
      Cursor.puts c2 (fmt3b s)) ∧
    (s0 = s → (loopIter s0 s c).1 = some {
        buf := c.buf.take (35 * COLS + 77)
               ++ (fmt3b s).map (fun b => cellOf b WHITE RED)
               ++ c.buf.drop (35 * COLS + 77 + 3),
        row := 36, col := 0, fg := WHITE, bg := RED }) := by
  refine ⟨rfl, rfl, ?_⟩
  intro h
  have hgoto : Cursor.goto { c with bg := RED, fg := WHITE } 35 77
      = some { buf := c.buf, row := 35, col := 77, fg := WHITE, bg := RED } := by
    rw [goto_eq, if_pos ⟨by decide, by decide⟩]
  have hnb : ∀ b ∈ fmt3b s, b ≠ 10 := by
    intro b hbm
    simp only [fmt3b, List.mem_cons, List.not_mem_nil, or_false] at hbm
    rcases hbm with h1 | h1 | h1 <;> omega
  have hcol : (⟨c.buf, 35, 77, WHITE, RED⟩ : Cursor).col < COLS := by
    simp [COLS]
  have hle : (⟨c.buf, 35, 77, WHITE, RED⟩ : Cursor).row * COLS
      + (⟨c.buf, 35, 77, WHITE, RED⟩ : Cursor).col + (fmt3b s).length
      ≤ (⟨c.buf, 35, 77, WHITE, RED⟩ : Cursor).buf.length := by
    dsimp only
    rw [hb]
    simp only [fmt3b, List.length_cons, List.length_nil, COLS, ROWS]
    omega
  unfold loopIter
  dsimp only
  rw [if_neg (fun hn => hn h)]
  simp only [Option.some_bind]
  rw [hgoto]
  simp only [Option.some_bind]
  rw [puts_run (fmt3b s) ⟨c.buf, 35, 77, WHITE, RED⟩ hnb hcol hle]
  dsimp only
  rw [show (fmt3b s).length = 3 from by simp [fmt3b]]
  rw [show (35 * COLS + 77 + 3) / COLS = 36 from by simp [COLS],
      show (35 * COLS + 77 + 3) % COLS = 0 from by simp [COLS]]

/-- Witness for the loop-iteration theorem: unchanged code 3 on the startup
cursor only paints the overlay. -/
theorem loop_iteration_spec_witness :
    (cstd.buf.length = COLS * ROWS ∧ (3 : Nat) < 8) ∧
    (loopIter 3 3 cstd).1 = some {
      buf := cstd.buf.take (35 * COLS + 77)
             ++ (fmt3b 3).map (fun b => cellOf b WHITE RED)
             ++ cstd.buf.drop (35 * COLS + 77 + 3),
      row := 36, col := 0, fg := WHITE, bg := RED } :=
  ⟨⟨by simp [cstd, Cursor.new], by decide⟩,
   (loop_iteration_spec 3 3 cstd (by simp [cstd, Cursor.new]) (by decide)).2.2 rfl⟩

/-- C4: every Screen Library procedure is deterministic and independent of
the incoming cursor position, colors and prior grid contents: on any two
starting states over full-size grids the whole result (in particular the
Grid contents) is identical, so calling the same procedure twice in
succession produces byte-identical Grid contents both times. -/
theorem screens_deterministic (c1 c2 : Cursor)
    (h1 : c1.buf.length = COLS * ROWS) (h2 : c2.buf.length = COLS * ROWS) :
    screen_error c1 = screen_error c2 ∧
    screen_start c1 = screen_start c2 ∧
    screen_paying c1 = screen_paying c2 ∧
    screen_confirm c1 = screen_confirm c2 ∧
    screen_line1 c1 = screen_line1 c2 ∧
    screen_line2 c1 = screen_line2 c2 ∧
    screen_line3 c1 = screen_line3 c2 ∧
    screen_thanks c1 = screen_thanks c2 := by
  have e1 : ({ c1 with bg := BLUE, fg := WHITE } : Cursor).buf.length = COLS * ROWS := h1
  have e2 : ({ c2 with bg := BLUE, fg := WHITE } : Cursor).buf.length = COLS * ROWS := h2
  have g1 : ({ c1 with bg := DK_GRAY, fg := WHITE } : Cursor).buf.length = COLS * ROWS := h1
  have g2 : ({ c2 with bg := DK_GRAY, fg := WHITE } : Cursor).buf.length = COLS * ROWS := h2
  refine ⟨?_, ?_, ?_, ?_, ?_, ?_, ?_, ?_⟩
  · unfold screen_error
    rw [clear_spec _ e1, clear_spec _ e2]
  · unfold screen_start
    rw [clear_spec _ g1, clear_spec _ g2]
  · unfold screen_paying
    rw [clear_spec _ g1, clear_spec _ g2]
  · unfold screen_confirm
    rw [clear_spec _ g1, clear_spec _ g2]
  · unfold screen_line1
    rw [clear_spec _ g1, clear_spec _ g2]
  · unfold screen_line2
    rw [clear_spec _ g1, clear_spec _ g2]
  · unfold screen_line3
    rw [clear_spec _ g1, clear_spec _ g2]
  · unfold screen_thanks
    rw [clear_spec _ g1, clear_spec _ g2]

/-- Witness for the screen-determinism theorem: the error screen painted over
the startup cursor and over a scribbled mid-screen cursor agree exactly. -/
theorem screens_deterministic_witness :
    (cstd.buf.length = COLS * ROWS ∧ c1wit.buf.length = COLS * ROWS) ∧
    screen_error cstd = screen_error c1wit ∧
    screen_thanks cstd = screen_thanks c1wit :=
  ⟨⟨by simp [cstd, Cursor.new], by simp [c1wit]⟩,
   (screens_deterministic cstd c1wit (by simp [cstd, Cursor.new]) (by simp [c1wit])).1,
   (screens_deterministic cstd c1wit (by simp [cstd, Cursor.new]) (by simp [c1wit])).2.2.2.2.2.2.2⟩

end HiresText
